import Mathlib

/-!
# Verification of the iTwinUI-react windower and ComboBox state logic

This development gives a shallow embedding of the two non-trivial pieces of
the repository:

* the `VirtualScroll` windowing math
  (`src/core/utils/components/VirtualScroll.tsx`), and
* the `ComboBox` interaction logic (`ComboBox.tsx` and
  `ComboBox/ComboBoxInput.tsx`).

JavaScript numbers that the source only ever uses as non-negative pixel
quantities or counts are modelled as `Nat`; intermediate values the source
allows to go negative (`start - bufferSize`, `childrenLength - startIndex`)
are computed in `Int` exactly where the source computes them.  DOM access is
modelled by passing the relevant measured data (element heights, the rendered
menu list) explicitly.
-/

namespace ITwinUI

/-! ## VirtualScroll: windowing math -/

/-- Embeds `getNumberOfNodesInHeight` from `VirtualScroll.tsx`: `0` when
`childHeight` is falsy, otherwise `Math.floor(totalHeight / childHeight)`
(floor division of non-negative numbers is `Nat` division). -/
def getNumberOfNodesInHeight (childHeight totalHeight : Nat) : Nat :=
  if childHeight = 0 then 0
  else totalHeight / childHeight

/-- Embeds `getTranslateValue` from `VirtualScroll.tsx`. -/
def getTranslateValue (childHeight firstChildHeight startIndex : Nat) : Nat :=
  if startIndex > 0 then childHeight * (startIndex - 1) + firstChildHeight
  else 0

/-- Embeds `getVisibleNodeCount` from `VirtualScroll.tsx`:
`Math.min(childrenLength - startIndex, getNumberOfNodesInHeight(childHeight, height))`.
`childrenLength - startIndex` can be negative in the source, so it is an `Int`. -/
def getVisibleNodeCount (childHeight startIndex childrenLength containerHeight : Nat) : Int :=
  min ((childrenLength : Int) - (startIndex : Int))
    ((getNumberOfNodesInHeight childHeight containerHeight : Nat) : Int)

/-- The `startNode` / `visibleNodeCount` pair held in the component state. -/
structure WindowState where
  startNode : Int
  visibleNodeCount : Int
deriving DecidableEq, Repr

/-- Embeds the state computation of `updateVirtualScroll` from
`VirtualScroll.tsx`: `start = getNumberOfNodesInHeight(child, scrollTop)`,
`startIndex = Math.max(0, start - bufferSize)`, and the
`setVisibleNodeCount(getVisibleNodeCount(child, start, itemsLength, container))`
call. -/
def updateVirtualScroll (childHeight scrollTop bufferSize itemsLength containerHeight : Nat) :
    WindowState :=
  let start := getNumberOfNodesInHeight childHeight scrollTop
  let startIndex : Int := max 0 ((start : Int) - (bufferSize : Int))
  { startNode := startIndex
    visibleNodeCount := getVisibleNodeCount childHeight start itemsLength containerHeight }

/-- Embeds the `endIndex` bound of the `visibleChildren` memo in
`VirtualScroll.tsx`: `Math.min(itemsLength, startNode + visibleNodeCount + bufferSize * 2)`.
The materialized index range is `[startNode, visibleEndIndex)`. -/
def visibleEndIndex (itemsLength bufferSize : Nat) (w : WindowState) : Int :=
  min (itemsLength : Int) (w.startNode + w.visibleNodeCount + (bufferSize : Int) * 2)

/-- Window computation as the spec words it (section 4.1 `computeWindow`):
`rawStart = floor(scrollOffset / rowHeight)` (0 if `rowHeight` is 0),
`startIndex = max(0, rawStart - bufferSize)`,
`visibleCount = min(itemCount - rawStart, floor(viewportHeight / rowHeight))`. -/
def computeWindowSpec (scrollOffset viewportHeight rowHeight itemCount bufferSize : Nat) :
    WindowState :=
  let rawStart : Nat := if rowHeight = 0 then 0 else scrollOffset / rowHeight
  { startNode := max 0 ((rawStart : Int) - (bufferSize : Int))
    visibleNodeCount :=
      min ((itemCount : Int) - (rawStart : Int)) ((viewportHeight / rowHeight : Nat) : Int) }

/-! ## VirtualScroll: child height measurement -/

/-- The measured data of a rendered item the measurement effect reads:
`getBoundingClientRect().height` plus the two computed margin styles. -/
structure MeasuredElement where
  height : Nat
  marginTop : Nat
  marginBottom : Nat
deriving DecidableEq, Repr

/-- The `childHeight` ref record `{ firstChild, child, lastChild }`. -/
structure ChildHeight where
  firstChild : Nat
  child : Nat
  lastChild : Nat
deriving DecidableEq, Repr

/-- JavaScript `??`: take the left operand unless it is null/undefined. -/
def jsNullishCoalesce {α : Type} : Option α → α → α
  | some a, _ => a
  | none, b => b

/-- Embeds `getElementHeightWithMargins` from `VirtualScroll.tsx`; `none` is a
missing element, for which the source returns `0` (via `getElementHeight`'s
`?? 0`; `parseFloat` of a missing element's style would be `NaN`, but the
source never reaches that because of the early `if (!element) return 0`). -/
def getElementHeightWithMargins : Option MeasuredElement → Nat
  | none => 0
  | some e => e.height + (e.marginTop + e.marginBottom)

/-- Embeds the child-measurement layout effect of `VirtualScroll.tsx`
(lines 178–199).  `children` is `parentRef.current.children` as a list; the
effect returns early (keeping the previous record) when there are no
children.  The source computes
`child: Number(getElementHeightWithMargins(child).toFixed(2)) ?? firstChildHeight`;
`Number(...)` always produces a number and never null/undefined, so the left
operand of `??` is always `some _` and the written fallback can never fire. -/
def measureChildHeights (prev : ChildHeight) (children : List MeasuredElement) : ChildHeight :=
  if children.length = 0 then prev
  else
    let firstChild := children[0]?
    let child := children[1]?
    let lastChild := children[children.length - 1]?
    let firstChildHeight := getElementHeightWithMargins firstChild
    { firstChild := firstChildHeight
      child := jsNullishCoalesce (some (getElementHeightWithMargins child)) firstChildHeight
      lastChild := getElementHeightWithMargins lastChild }

/-- Embeds the `minHeight` style of the outer wrapper in `VirtualScroll.tsx`:
`Math.max(itemsLength - 2, 0) * child + firstChild + lastChild`. -/
def minHeightReservation (itemsLength : Nat) (ch : ChildHeight) : Int :=
  max ((itemsLength : Int) - 2) 0 * (ch.child : Int)
    + (ch.firstChild : Int) + (ch.lastChild : Int)

/-! ## ComboBox: data model -/

/-- A `SelectOption<T>` as used by `ComboBox.tsx`: a label, a value, the
`isSelected` flag read by the multi-select change-notification effect (JS
`undefined` is falsy there, so the absent flag is modelled as `false`), and
an optional caller-supplied id. -/
structure SelectOption (α : Type) where
  label : List Char
  value : α
  isSelected : Bool := false
  id : Option (List Char) := none
deriving DecidableEq, Repr

/-- Embeds `getOptionId` from `ComboBox.tsx`:
`option.id ?? idPrefix + "-option-" + option.label.replace(whitespace, "-")`. -/
def getOptionId {α : Type} (option : SelectOption α) (idPrefix : List Char) : List Char :=
  jsNullishCoalesce option.id
    (idPrefix ++ "-option-".toList
      ++ option.label.map fun c => if c.isWhitespace then '-' else c)

/-- Embeds the rebuild of `optionsExtraInfoRef` in `ComboBox.tsx` (lines
199–214): the record is cleared whenever `options` changes and refilled from
the new array when it is non-empty, mapping each option's id to its
`__originalIndex` in the new array. -/
def buildOptionsExtraInfo {α : Type} (options : List (SelectOption α)) (idPrefix : List Char) :
    List (List Char × Nat) :=
  if options.length > 0 then
    options.enum.map fun p => (getOptionId p.2 idPrefix, p.1)
  else []

/-- JS `Array.prototype.findIndex`: index of the first element satisfying the
predicate, `-1` when there is none. -/
def jsFindIndex {α : Type} (p : α → Bool) (l : List α) : Int :=
  match l.findIdx? p with
  | some i => (i : Nat)
  | none => -1

/-- Embeds `getSelectedIndexes` from `ComboBox.tsx` (lines 217–227): for each
value in the (multi) value prop, push `options.findIndex(o => o.value === v)`;
an undefined value prop contributes nothing. -/
def getSelectedIndexes {α : Type} [DecidableEq α] (options : List (SelectOption α))
    (valueProp : Option (List α)) : List Int :=
  (valueProp.getD []).map fun v => jsFindIndex (fun o => decide (o.value = v)) options

/-- The reducer's `selectedIndex`: a single index (`-1` when nothing matches)
in single mode, a list of original indexes in multiple mode. -/
inductive SelectedIndex
  | single (i : Int)
  | multi (l : List Nat)
deriving DecidableEq, Repr

/-- The component-wide reducer state `{ isOpen, selectedIndex, focusedIndex }`
of `ComboBox.tsx` (line 230). -/
structure ComboBoxState where
  isOpen : Bool
  selectedIndex : SelectedIndex
  focusedIndex : Int
deriving DecidableEq, Repr

/-- The reducer actions dispatched by `ComboBox.tsx` and `ComboBoxInput.tsx`:
open, close, select, multiselect, and focus with or without an index
(`openMenu`/`closeMenu`/`focusReset`/`focusSet` name the `'open'`, `'close'`
and the two `'focus'` action shapes). -/
inductive ComboBoxAction
  | openMenu
  | closeMenu
  | select (i : Int)
  | multiselect (i : Nat)
  | focusReset
  | focusSet (i : Int)
deriving DecidableEq, Repr

/-- Modelled from the spec: `comboBoxReducer` lives in `ComboBox/helpers`,
which is not part of the source snapshot (only its dispatch sites are).
Following spec section 4.2: open/close set `isOpen`; `select` stores the
single selected index; `multiselect` "toggles membership of the focused
option in the selection set" keyed by original index; `focus` without an
index resets `focusedIndex` to none (`-1`), with an index it stores it. -/
def comboBoxReducer (s : ComboBoxState) (a : ComboBoxAction) : ComboBoxState :=
  match a with
  | ComboBoxAction.openMenu => { s with isOpen := true }
  | ComboBoxAction.closeMenu => { s with isOpen := false }
  | ComboBoxAction.select i => { s with selectedIndex := SelectedIndex.single i }
  | ComboBoxAction.multiselect i =>
    match s.selectedIndex with
    | SelectedIndex.multi l =>
      let toggled := if l.contains i then l.filter (fun j => j != i) else l ++ [i]
      { s with selectedIndex := SelectedIndex.multi toggled }
    | SelectedIndex.single _ => s
  | ComboBoxAction.focusReset => { s with focusedIndex := -1 }
  | ComboBoxAction.focusSet i => { s with focusedIndex := i }

/-- Dispatches a list of actions in order. -/
def applyActions (s : ComboBoxState) (l : List ComboBoxAction) : ComboBoxState :=
  l.foldl comboBoxReducer s

/-- Embeds the `Enter` branch of `handleKeyDown` in `ComboBoxInput.tsx`
(lines 144–166) as the list of actions it dispatches: open when closed;
multiselect of the focused option (staying open) or close when unfocused in
multiple mode; select of the focused option followed by close in single
mode. -/
def handleEnterActions (isOpen multiple : Bool) (focusedIndex : Int) : List ComboBoxAction :=
  if isOpen then
    if multiple then
      if focusedIndex > -1 then [ComboBoxAction.multiselect focusedIndex.toNat]
      else [ComboBoxAction.closeMenu]
    else [ComboBoxAction.select focusedIndex, ComboBoxAction.closeMenu]
  else [ComboBoxAction.openMenu]

/-- The `'added' | 'removed'` marker of a multi-select change notification. -/
inductive ChangeEvent
  | added
  | removed
deriving DecidableEq, Repr

/-- One `onChange` call: single-mode calls carry a value (possibly
`undefined`), multi-mode calls carry a value and an added/removed marker. -/
inductive ChangeCall (α : Type)
  | single (value : Option α)
  | multi (value : Option α) (event : ChangeEvent)
deriving DecidableEq, Repr

/-- Embeds the multi-select branch of the change-notification effect in
`ComboBox.tsx` (lines 349–361): `selectedOptions` is
`selectedIndex.map(i => options[i])`, and when it is non-empty one
`onChange(option.value, option.isSelected ? 'removed' : 'added')` call is
made per currently selected option.  An out-of-range index would make the
property accesses throw in JS; it is modelled as `none`/`false` and never
reached in the traces considered. -/
def multiChangeCalls {α : Type} (options : List (SelectOption α)) (sel : List Nat) :
    List (ChangeCall α) :=
  let currentOptions := sel.map fun i => options[i]?
  if currentOptions.length > 0 then
    currentOptions.map fun o =>
      ChangeCall.multi (o.map (fun x => x.value))
        (if (o.map (fun x => x.isSelected)).getD false then ChangeEvent.removed
         else ChangeEvent.added)
  else []

/-- Embeds the change-notification effect of `ComboBox.tsx` (lines 343–380).
The first component is the `mounted` ref after the run (always `true`), the
second the list of `onChange` calls made: none on the very first run; in
multiple mode the calls of `multiChangeCalls`; in single mode a single call
with `options[selectedIndex]?.value` unless that value strictly equals the
value prop or `selectedIndex` is `-1`. -/
def comboBoxOnChangeEffect {α : Type} [DecidableEq α] (mounted multiple : Bool)
    (options : List (SelectOption α)) (valueProp : Option α) (sel : SelectedIndex) :
    Bool × List (ChangeCall α) :=
  if mounted = false then (true, [])
  else if multiple then
    match sel with
    | SelectedIndex.multi l => (true, multiChangeCalls options l)
    | SelectedIndex.single _ => (true, [])
  else
    match sel with
    | SelectedIndex.single si =>
      let currentValue : Option α :=
        if si < 0 then none else (options[si.toNat]?).map fun o => o.value
      if currentValue = valueProp ∨ si = -1 then (true, [])
      else (true, [ChangeCall.single currentValue])
    | SelectedIndex.multi _ => (true, [])

/-- Embeds the single-mode branch of the value-reconciliation effect of
`ComboBox.tsx` (lines 322–339): dispatch `select` with
`options.findIndex(o => o.value === valueProp)`. -/
def valuePropEffectSingleActions {α : Type} [DecidableEq α]
    (options : List (SelectOption α)) (valueProp : Option α) : List ComboBoxAction :=
  [ComboBoxAction.select (jsFindIndex (fun o => decide (some o.value = valueProp)) options)]

/-- Embeds the multiple-mode branch of the value-reconciliation effect of
`ComboBox.tsx` (lines 325–332): the entire recomputation is commented out in
the source (marked `TODO add multiselect version of this`), so the effect
dispatches nothing when the multi value prop changes. -/
def valuePropEffectMultiActions {α : Type} (_options : List (SelectOption α))
    (_valueProp : Option (List α)) : List ComboBoxAction :=
  []

/-! ## ComboBox: filtering -/

/-- JS `String.prototype.includes` on lists of characters: the needle occurs
as a contiguous substring (every string includes the empty string). -/
def containsSubstr (hay needle : List Char) : Bool :=
  match hay with
  | [] => needle.isPrefixOf ([] : List Char)
  | c :: t => needle.isPrefixOf (c :: t) || containsSubstr t needle

/-- The filter-related component state: the typed input value and the
filtered option view. -/
structure FilterState (α : Type) where
  inputValue : List Char
  filteredOptions : List (SelectOption α)
deriving DecidableEq, Repr

/-- Embeds the default filtering of `handleOnInput` in `ComboBox.tsx` (lines
303–320, no custom `filterFunction` supplied):
`optionsRef.current.filter(o => o.label.toLowerCase().includes(value.toLowerCase()))`. -/
def defaultFilter {α : Type} (options : List (SelectOption α)) (value : List Char) :
    List (SelectOption α) :=
  options.filter fun o =>
    containsSubstr (o.label.map Char.toLower) (value.map Char.toLower)

/-- Embeds the state update of `handleOnInput` (sans its open/focus
dispatches): the typed value is stored and `filteredOptions` is recomputed
from `optionsRef.current` — the full option sequence — never from the
previous filtered view held in the state. -/
def handleOnInput {α : Type} (options : List (SelectOption α)) (_s : FilterState α)
    (value : List Char) : FilterState α :=
  { inputValue := value, filteredOptions := defaultFilter options value }

/-! ## ComboBox: ArrowDown navigation (`ComboBoxInput.tsx`) -/

/-- A rendered menu item as the DOM-query-based keyboard navigation sees it:
its `data-iui-index` attribute (the original index) and whether it carries
`aria-disabled="true"`. -/
structure MenuOpt where
  originalIndex : Nat
  disabled : Bool
deriving DecidableEq, Repr

/-- Embeds `menuRef.current.querySelector('[data-iui-index="i"]')` as the
position of the first rendered element carrying original index `i`. -/
def findPos (menu : List MenuOpt) (i : Int) : Option Nat :=
  match menu with
  | [] => none
  | e :: rest =>
    if (e.originalIndex : Int) = i then some 0
    else (findPos rest i).map fun p => p + 1

/-- Embeds `querySelector('[data-iui-index="i"]')?.nextElementSibling ??
querySelector('[data-iui-index]')`: the rendered element after the one
carrying index `i`, falling back to the first rendered element when that
element is missing or is the last one. -/
def nextElem (menu : List MenuOpt) (i : Int) : Option MenuOpt :=
  ((findPos menu i).bind fun p => menu[p + 1]?).orElse fun _ => menu.head?

/-- Embeds the `do … while (nextIndex !== focusedIndexRef.current)` loop of
the ArrowDown branch of `ComboBoxInput.tsx` (lines 83–96): starting from the
current index, step to the next rendered sibling (wrapping to the first
rendered element), dispatch focus on the first non-disabled element reached,
and stop without dispatching when the walk returns to the focused index.
The JS loop has no fuel; `menu.length + 1` iterations suffice whenever the
focused index is rendered, which is the situation the component maintains.
(For an empty menu the source would dispatch `focus(NaN)`; the model returns
no dispatch there, and the theorems below only consider non-empty menus.) -/
def arrowDownLoop (menu : List MenuOpt) (focused : Int) : Int → Nat → Option Nat
  | _, 0 => none
  | i, fuel + 1 =>
    match nextElem menu i with
    | none => none
    | some e =>
      if e.disabled = false then some e.originalIndex
      else if (e.originalIndex : Int) = focused then none
      else arrowDownLoop menu focused (e.originalIndex : Int) fuel

/-- The outcome of a key-down handler: dispatch `open`, dispatch a focus
move, or do nothing. -/
inductive KeyResult
  | dispatchOpen
  | noop
  | dispatchFocus (i : Int)
deriving DecidableEq, Repr

/-- Embeds the `ArrowDown` branch of `handleKeyDown` in `ComboBoxInput.tsx`
(lines 51–98).  `optionCount` is
`Object.keys(optionsExtraInfoRef.current).length` (the number of options,
filtered or not), `menu` is the rendered filtered item list in DOM order and
`focused` is `focusedIndexRef.current`.  Closed dropdown: dispatch open.  No
options: nothing.  No focus: dispatch focus on the first rendered element
(`?? 0` when the menu is empty).  Virtualization enabled and the focused
element missing or without next sibling: nothing.  Otherwise run the
sibling-walk loop. -/
def handleArrowDown (isOpen : Bool) (optionCount : Nat) (enableVirtualization : Bool)
    (menu : List MenuOpt) (focused : Int) : KeyResult :=
  if isOpen = false then KeyResult.dispatchOpen
  else if optionCount = 0 then KeyResult.noop
  else if focused = -1 then
    KeyResult.dispatchFocus ((menu.head?.map fun e => (e.originalIndex : Int)).getD 0)
  else if enableVirtualization = true
      ∧ ((findPos menu focused).bind fun p => menu[p + 1]?) = none then
    KeyResult.noop
  else
    match arrowDownLoop menu focused focused (menu.length + 1) with
    | some n => KeyResult.dispatchFocus (n : Int)
    | none => KeyResult.noop

/-- The rendered options after position `p`, in cyclic visit order:
positions `p+1, …, len-1, 0, …, p`. -/
def rotateAfter (menu : List MenuOpt) (p : Nat) : List MenuOpt :=
  menu.drop (p + 1) ++ menu.take (p + 1)

/-! ## Concrete data for evaluations -/

/-- Options used by the concrete evaluations: labels `A`, `B` with values
`1`, `2`, nothing pre-selected. -/
def demoOptions : List (SelectOption Nat) :=
  [{ label := ['A'], value := 1 }, { label := ['B'], value := 2 }]

/-- The multi-mode selection list of a state (empty for a single state). -/
def selectedList : SelectedIndex → List Nat
  | SelectedIndex.multi l => l
  | SelectedIndex.single _ => []

/-- C2 scenario start: dropdown open, empty multi selection, option 0
focused. -/
def multiEnterState0 : ComboBoxState :=
  { isOpen := true, selectedIndex := SelectedIndex.multi [], focusedIndex := 0 }

/-- C2 scenario after the first Enter press. -/
def multiEnterState1 : ComboBoxState :=
  applyActions multiEnterState0 (handleEnterActions true true 0)

/-- C2 scenario after the second Enter press. -/
def multiEnterState2 : ComboBoxState :=
  applyActions multiEnterState1 (handleEnterActions true true 0)

end ITwinUI

namespace ITwinUI

/-! ## Theorems: VirtualScroll -/

/-- C5: the recomputation performed by `updateVirtualScroll` agrees with the
spec's `computeWindow` formulas — `rawStart = floor(scrollOffset / rowHeight)`
(0 when `rowHeight = 0`), `startIndex = max(0, rawStart - bufferSize)`,
`visibleCount = min(itemCount - rawStart, floor(viewportHeight / rowHeight))` —
and scroll offset 0 always yields `startIndex = 0`. -/
theorem updateVirtualScroll_eq_computeWindowSpec
    (scrollOffset viewportHeight rowHeight itemCount bufferSize : Nat) :
    updateVirtualScroll rowHeight scrollOffset bufferSize itemCount viewportHeight
      = computeWindowSpec scrollOffset viewportHeight rowHeight itemCount bufferSize
    ∧ (updateVirtualScroll rowHeight 0 bufferSize itemCount viewportHeight).startNode = 0 := by
  constructor
  · by_cases h : rowHeight = 0 <;>
      simp [updateVirtualScroll, computeWindowSpec, getVisibleNodeCount,
        getNumberOfNodesInHeight, h]
  · simp only [updateVirtualScroll, getNumberOfNodesInHeight]
    have h0 : (if rowHeight = 0 then 0 else 0 / rowHeight) = 0 := by
      by_cases h : rowHeight = 0 <;> simp [h]
    rw [h0]
    omega

/-- C1: for every (non-negative) scroll offset, row height, container height,
item count and buffer size, the materialized index range
`[startNode, min(itemsLength, startNode + visibleNodeCount + 2*bufferSize))`
is a subset of `[0, itemsLength)`, and the recomputed window state satisfies
`startNode ≥ 0` and `startNode + visibleNodeCount ≤ itemsLength`. -/
theorem updateVirtualScroll_window_invariant
    (childHeight scrollTop bufferSize itemsLength containerHeight : Nat) :
    (∀ i : Int,
      (updateVirtualScroll childHeight scrollTop bufferSize itemsLength containerHeight).startNode ≤ i →
      i < visibleEndIndex itemsLength bufferSize
            (updateVirtualScroll childHeight scrollTop bufferSize itemsLength containerHeight) →
      0 ≤ i ∧ i < (itemsLength : Int))
    ∧ 0 ≤ (updateVirtualScroll childHeight scrollTop bufferSize itemsLength containerHeight).startNode
    ∧ (updateVirtualScroll childHeight scrollTop bufferSize itemsLength containerHeight).startNode
        + (updateVirtualScroll childHeight scrollTop bufferSize itemsLength containerHeight).visibleNodeCount
        ≤ (itemsLength : Int) := by
  simp only [updateVirtualScroll, visibleEndIndex, getVisibleNodeCount]
  generalize getNumberOfNodesInHeight childHeight scrollTop = start
  generalize getNumberOfNodesInHeight childHeight containerHeight = cnt
  refine ⟨?_, ?_, ?_⟩
  · intro i hlo hhi
    omega
  · omega
  · omega

/-- C1 witness: a concrete recomputation (row height 10, scrolled to 25,
buffer 2, 50 items, container height 30) whose materialized index 1 lies in
`[0, 50)` and whose window state satisfies the invariant. -/
theorem updateVirtualScroll_window_invariant_witness :
    (0 ≤ (1 : Int) ∧ (1 : Int) < (50 : Nat))
    ∧ 0 ≤ (updateVirtualScroll 10 25 2 50 30).startNode
    ∧ (updateVirtualScroll 10 25 2 50 30).startNode
        + (updateVirtualScroll 10 25 2 50 30).visibleNodeCount ≤ ((50 : Nat) : Int) := by
  have h := updateVirtualScroll_window_invariant 10 25 2 50 30
  exact ⟨h.1 1 (by decide) (by decide), h.2.1, h.2.2⟩

/-- C6 counterexample: the claim quantifies over every `rowHeight`,
`firstRowHeight` and `startIndex ≥ 0` and asserts the translate is `0`
exactly when `startIndex = 0`; at `rowHeight = 0`, `firstRowHeight = 0`,
`startIndex = 1` the translate is `0` although `startIndex ≠ 0`. -/
theorem getTranslateValue_zero_iff_fails :
    getTranslateValue 0 0 1 = 0 ∧ (1 : Nat) ≠ 0 := by decide

/-- C6 (amended): `getTranslateValue` returns `0` when `startIndex = 0` and
`rowHeight * (startIndex - 1) + firstRowHeight` otherwise; when
`firstRowHeight > 0` it returns `0` exactly when `startIndex = 0`. -/
theorem getTranslateValue_characterization
    (childHeight firstChildHeight startIndex : Nat) :
    getTranslateValue childHeight firstChildHeight 0 = 0
    ∧ (0 < startIndex →
        getTranslateValue childHeight firstChildHeight startIndex
          = childHeight * (startIndex - 1) + firstChildHeight)
    ∧ (0 < firstChildHeight →
        (getTranslateValue childHeight firstChildHeight startIndex = 0 ↔ startIndex = 0)) := by
  refine ⟨rfl, ?_, ?_⟩
  · intro h
    simp [getTranslateValue, h]
  · intro hf
    unfold getTranslateValue
    by_cases h : startIndex > 0
    · rw [if_pos h]
      constructor
      · intro he
        exact absurd (Nat.add_eq_zero.mp he).2 (by omega)
      · intro he
        exact absurd he (by omega)
    · rw [if_neg h]
      omega

/-- C6 witness: at `rowHeight = 10`, `firstRowHeight = 12`, `startIndex = 3`
the translate is `10 * 2 + 12 = 32`, and it is nonzero as `startIndex ≠ 0`. -/
theorem getTranslateValue_characterization_witness :
    getTranslateValue 10 12 3 = 10 * (3 - 1) + 12
    ∧ (getTranslateValue 10 12 3 = 0 ↔ (3 : Nat) = 0) :=
  ⟨(getTranslateValue_characterization 10 12 3).2.1 (by decide),
   (getTranslateValue_characterization 10 12 3).2.2 (by decide)⟩

/-- C9: the `?? firstChildHeight` fallback written in the measurement effect
is dead (its left operand `Number(...)` is never nullish), so with a single
materialized item of height 40 the stored middle height is `0`, not the first
item's measured height `40` as the claim states; the first and last stored
heights do equal the first and last items' height-plus-margins. -/
theorem measureChildHeights_single_item_eval :
    (measureChildHeights ⟨0, 0, 0⟩ [⟨40, 0, 0⟩]).child = 0
    ∧ (measureChildHeights ⟨0, 0, 0⟩ [⟨40, 0, 0⟩]).firstChild = 40
    ∧ (0 : Nat) ≠ 40
    ∧ (measureChildHeights ⟨0, 0, 0⟩ [⟨30, 1, 2⟩, ⟨20, 3, 4⟩, ⟨10, 5, 6⟩]
        = ⟨33, 27, 21⟩) := by decide

/-- C10 counterexample: the claim asserts the materialized window is empty
while the row height is unmeasured (`rowHeight = 0`), and that `itemCount = 0`
gives a zero height reservation.  With `rowHeight = 0`, 5 items and the
default buffer 10 the materialized range is `[0, 5)`, which is not empty;
and with previously measured heights `⟨40, 40, 40⟩` the reservation at
`itemCount = 0` is `80`, not `0`. -/
theorem virtualScroll_unmeasured_window_not_empty :
    (updateVirtualScroll 0 0 10 5 100).startNode = 0
    ∧ visibleEndIndex 5 10 (updateVirtualScroll 0 0 10 5 100) = 5
    ∧ (5 : Int) ≠ 0
    ∧ minHeightReservation 0 ⟨40, 40, 40⟩ = 80 := by decide

/-- C10 (amended): while no row height has been measured (`rowHeight = 0`)
the recomputed window has `startNode = 0` and `visibleCount = 0`, and the
materialized range is `[0, min(itemCount, 2*bufferSize))` — only buffer
items, empty only when `itemCount = 0` or `bufferSize = 0`; when
`itemCount = 0` the materialized range is always empty, and the reserved
height is `0` when nothing was ever measured (all stored heights `0`),
being `firstChild + lastChild` in general. -/
theorem virtualScroll_unmeasured_and_empty_cases
    (scrollTop bufferSize itemsLength containerHeight childHeight : Nat) (ch : ChildHeight) :
    (updateVirtualScroll 0 scrollTop bufferSize itemsLength containerHeight).startNode = 0
    ∧ (updateVirtualScroll 0 scrollTop bufferSize itemsLength containerHeight).visibleNodeCount = 0
    ∧ visibleEndIndex itemsLength bufferSize
        (updateVirtualScroll 0 scrollTop bufferSize itemsLength containerHeight)
        = min (itemsLength : Int) (2 * (bufferSize : Int))
    ∧ visibleEndIndex 0 bufferSize
        (updateVirtualScroll childHeight scrollTop bufferSize 0 containerHeight)
        ≤ (updateVirtualScroll childHeight scrollTop bufferSize 0 containerHeight).startNode
    ∧ minHeightReservation 0 ⟨0, 0, 0⟩ = 0
    ∧ minHeightReservation 0 ch = (ch.firstChild : Int) + (ch.lastChild : Int) := by
  refine ⟨?_, ?_, ?_, ?_, by decide, ?_⟩
  · simp [updateVirtualScroll, getNumberOfNodesInHeight]
  · simp [updateVirtualScroll, getNumberOfNodesInHeight, getVisibleNodeCount]
  · simp only [visibleEndIndex, updateVirtualScroll, getNumberOfNodesInHeight,
      getVisibleNodeCount]
    simp
    omega
  · simp only [visibleEndIndex, updateVirtualScroll, getVisibleNodeCount]
    generalize getNumberOfNodesInHeight childHeight scrollTop = start
    generalize getNumberOfNodesInHeight childHeight containerHeight = cnt
    omega
  · simp only [minHeightReservation, Nat.cast_zero]
    have hm : max ((0 : Int) - 2) 0 = 0 := by decide
    rw [hm, zero_mul, zero_add]

/-! ## Theorems: ComboBox -/

/-- C2: evaluation at the failing input.  With options `A` (value 1) and `B`
(value 2), an open multi-select ComboBox with empty selection and option 0
focused, Enter dispatches only a `multiselect` (the dropdown stays open) and
toggles option 0 in, and the change effect fires exactly one `onChange`
carrying `added`; the second Enter toggles it back out, restoring the empty
selection, but the change effect then fires no call at all — the multi
branch maps over the now-empty list of currently selected options — instead
of the claimed single call carrying `removed`. -/
theorem comboBox_multiEnter_eval :
    multiEnterState1.isOpen = true
    ∧ selectedList multiEnterState1.selectedIndex = [0]
    ∧ comboBoxOnChangeEffect true true demoOptions none multiEnterState1.selectedIndex
        = (true, [ChangeCall.multi (some 1) ChangeEvent.added])
    ∧ multiEnterState2.isOpen = true
    ∧ selectedList multiEnterState2.selectedIndex = []
    ∧ comboBoxOnChangeEffect true true demoOptions none multiEnterState2.selectedIndex
        = (true, ([] : List (ChangeCall Nat))) := by decide

/-- C3: evaluation at the failing input.  In multiple mode a change of the
value prop dispatches nothing — the recomputation branch is commented out in
the source — so the selection set stays as it was (here, empty); the
mount-time linear search `getSelectedIndexes` over the same options and the
new value prop `[2]` shows that recomputation by value equality would yield
`[1]`.  In single mode the effect does dispatch `select` with the
linear-search index (and `-1` when no option matches). -/
theorem comboBox_valuePropChange_eval :
    valuePropEffectMultiActions demoOptions (some [2]) = []
    ∧ applyActions multiEnterState0 (valuePropEffectMultiActions demoOptions (some [2]))
        = multiEnterState0
    ∧ selectedList multiEnterState0.selectedIndex = []
    ∧ getSelectedIndexes demoOptions (some [2]) = [1]
    ∧ valuePropEffectSingleActions demoOptions (some 2) = [ComboBoxAction.select 1]
    ∧ valuePropEffectSingleActions demoOptions (some 7)
        = [ComboBoxAction.select (-1)] := by decide

/-- C4: the change effect never emits a call on its first run after mount,
for any mode, options, value prop and selection; after mount, in single mode
it emits either nothing or exactly one call whose value differs from the
caller-supplied value prop; and committing an in-range index whose option
value differs from the value prop emits exactly one call carrying that
option's value. -/
theorem comboBox_onChange_single_props {α : Type} [DecidableEq α]
    (multiple : Bool) (options : List (SelectOption α)) (valueProp : Option α)
    (sel : SelectedIndex) (si : Int) (i : Nat) (o : SelectOption α) :
    (comboBoxOnChangeEffect false multiple options valueProp sel).2 = []
    ∧ ((comboBoxOnChangeEffect true false options valueProp (SelectedIndex.single si)).2 = []
        ∨ ∃ w, (comboBoxOnChangeEffect true false options valueProp
                  (SelectedIndex.single si)).2 = [ChangeCall.single w] ∧ w ≠ valueProp)
    ∧ (options[i]? = some o → some o.value ≠ valueProp →
        (comboBoxOnChangeEffect true false options valueProp
            (SelectedIndex.single (i : Int))).2 = [ChangeCall.single (some o.value)]) := by
  refine ⟨rfl, ?_, ?_⟩
  · simp only [comboBoxOnChangeEffect]
    by_cases h : (if si < 0 then none
        else (options[si.toNat]?).map fun o => o.value) = valueProp ∨ si = -1
    · left
      rw [if_neg (by simp), if_neg (by simp), if_pos h]
    · right
      refine ⟨if si < 0 then none else (options[si.toNat]?).map fun o => o.value, ?_, ?_⟩
      · rw [if_neg (by simp), if_neg (by simp), if_neg h]
      · exact fun he => h (Or.inl he)
  · intro hget hne
    have h0 : ¬((i : Int) < 0) := by omega
    have h1 : ((i : Int)).toNat = i := by omega
    have h2 : ¬((i : Int) = -1) := by omega
    simp only [comboBoxOnChangeEffect, h1, if_neg h0, hget, Option.map_some']
    rw [if_neg (by simp), if_neg (by simp), if_neg (by exact fun hc => hc.elim hne h2)]

/-- C4 witness: after mount, committing focused option 0 (value 1) while the
value prop is 2 emits exactly one call carrying value 1; and the very first
run emits nothing. -/
theorem comboBox_onChange_single_props_witness :
    (comboBoxOnChangeEffect false false demoOptions (some 2)
        (SelectedIndex.single (-1))).2 = []
    ∧ (comboBoxOnChangeEffect true false demoOptions (some 2)
        (SelectedIndex.single ((0 : Nat) : Int))).2 = [ChangeCall.single (some 1)] :=
  ⟨(comboBox_onChange_single_props false demoOptions (some 2) (SelectedIndex.single (-1))
      (-1) 0 { label := ['A'], value := 1 }).1,
   (comboBox_onChange_single_props false demoOptions (some 2) (SelectedIndex.single (-1))
      (-1) 0 { label := ['A'], value := 1 }).2.2 (by decide) (by decide)⟩

/-- C7: with no custom filter function, the filtered view produced by a
keystroke is a subsequence of the full option sequence containing exactly
the options whose lower-cased label contains the lower-cased filter text;
the view is invariant under changing the letter case of the filter text; and
it is recomputed from the full option sequence — any two previous states,
whatever their previous filtered views, yield the same new view. -/
theorem comboBox_defaultFilter_props {α : Type} [DecidableEq α]
    (options : List (SelectOption α)) (s1 s2 : FilterState α) (v1 v2 : List Char) :
    (handleOnInput options s1 v1).filteredOptions.Sublist options
    ∧ (∀ o : SelectOption α, o ∈ (handleOnInput options s1 v1).filteredOptions
        ↔ o ∈ options
          ∧ containsSubstr (o.label.map Char.toLower) (v1.map Char.toLower) = true)
    ∧ (v1.map Char.toLower = v2.map Char.toLower →
        (handleOnInput options s1 v1).filteredOptions
          = (handleOnInput options s2 v2).filteredOptions) := by
  refine ⟨?_, ?_, ?_⟩
  · simp only [handleOnInput, defaultFilter]
    exact List.filter_sublist _
  · intro o
    simp [handleOnInput, defaultFilter, List.mem_filter]
  · intro h
    simp only [handleOnInput, defaultFilter, h]

/-! ### ArrowDown navigation: supporting lemmas -/

theorem findPos_eq_of_nodup (menu : List MenuOpt) (q : Nat) (e : MenuOpt)
    (hnd : (menu.map MenuOpt.originalIndex).Nodup)
    (hq : menu[q]? = some e) :
    findPos menu (e.originalIndex : Int) = some q := by
  induction menu generalizing q with
  | nil => simp at hq
  | cons h t ih =>
    rw [List.map_cons, List.nodup_cons] at hnd
    cases q with
    | zero =>
      simp only [List.getElem?_cons_zero, Option.some_inj] at hq
      subst hq
      simp [findPos]
    | succ q1 =>
      simp only [List.getElem?_cons_succ] at hq
      have hmem : e ∈ t := List.getElem?_mem hq
      have hne : ¬((h.originalIndex : Int) = (e.originalIndex : Int)) := by
        intro hc
        rw [Nat.cast_inj] at hc
        exact hnd.1 (hc ▸ List.mem_map_of_mem MenuOpt.originalIndex hmem)
      simp only [findPos, if_neg hne]
      rw [ih q1 hnd.2 hq]
      rfl

theorem nextElem_at (menu : List MenuOpt) (q : Nat) (e : MenuOpt)
    (hnd : (menu.map MenuOpt.originalIndex).Nodup)
    (hq : menu[q]? = some e) :
    nextElem menu (e.originalIndex : Int) = menu[(q + 1) % menu.length]? := by
  have hlt : q < menu.length := (List.getElem?_eq_some.mp hq).1
  unfold nextElem
  rw [findPos_eq_of_nodup menu q e hnd hq]
  have hbind : ((some q).bind fun p => menu[p + 1]?) = menu[q + 1]? := rfl
  rw [hbind]
  by_cases h1 : q + 1 < menu.length
  · rw [Nat.mod_eq_of_lt h1, List.getElem?_eq_getElem h1]
    rfl
  · have h2 : q + 1 = menu.length := by omega
    rw [h2, Nat.mod_self, List.getElem?_eq_none (le_refl _), ← List.head?_eq_getElem?]
    rfl

theorem rotateAfter_length (menu : List MenuOpt) (p : Nat) (hp : p < menu.length) :
    (rotateAfter menu p).length = menu.length := by
  unfold rotateAfter
  rw [List.length_append, List.length_drop, List.length_take]
  omega

theorem rotateAfter_getElem? (menu : List MenuOpt) (p s : Nat)
    (hp : p < menu.length) (hs : s < menu.length) :
    (rotateAfter menu p)[s]? = menu[(p + 1 + s) % menu.length]? := by
  unfold rotateAfter
  rw [List.getElem?_append, List.length_drop]
  by_cases h : s < menu.length - (p + 1)
  · rw [if_pos h, List.getElem?_drop]
    congr 1
    rw [Nat.mod_eq_of_lt (by omega)]
  · rw [if_neg h, List.getElem?_take]
    rw [if_pos (by omega)]
    congr 1
    rw [Nat.mod_eq_sub_mod (by omega), Nat.mod_eq_of_lt (by omega)]
    omega

theorem orig_inj_of_nodup (menu : List MenuOpt) (a b : Nat) (x y : MenuOpt)
    (hnd : (menu.map MenuOpt.originalIndex).Nodup)
    (ha : menu[a]? = some x) (hb : menu[b]? = some y)
    (hxy : x.originalIndex = y.originalIndex) : a = b := by
  have ha2 : (menu.map MenuOpt.originalIndex)[a]? = some x.originalIndex := by
    rw [List.getElem?_map, ha]
    rfl
  have hb2 : (menu.map MenuOpt.originalIndex)[b]? = some y.originalIndex := by
    rw [List.getElem?_map, hb]
    rfl
  have hlt : a < (menu.map MenuOpt.originalIndex).length := by
    rw [List.length_map]
    exact (List.getElem?_eq_some.mp ha).1
  exact List.getElem?_inj hlt hnd (by rw [ha2, hb2, hxy])

theorem arrowDownLoop_eq_find (menu : List MenuOpt) (p : Nat) (f : MenuOpt)
    (hnd : (menu.map MenuOpt.originalIndex).Nodup)
    (hp : menu[p]? = some f) :
    ∀ fuel s q e, s < menu.length → menu.length - s ≤ fuel →
      q = (p + s) % menu.length → menu[q]? = some e →
      arrowDownLoop menu (f.originalIndex : Int) (e.originalIndex : Int) fuel
        = (((rotateAfter menu p).drop s).find? fun x => !x.disabled).map
            MenuOpt.originalIndex := by
  have hplt : p < menu.length := (List.getElem?_eq_some.mp hp).1
  have hlen : 0 < menu.length := by omega
  intro fuel
  induction fuel with
  | zero =>
    intro s q e hs hfuel hq he
    omega
  | succ fuel ih =>
    intro s q e hs hfuel hq he
    set q2 := (q + 1) % menu.length with hq2def
    have hq2lt : q2 < menu.length := Nat.mod_lt _ hlen
    obtain ⟨e2, he2⟩ : ∃ e2, menu[q2]? = some e2 := by
      rw [List.getElem?_eq_getElem hq2lt]
      exact ⟨_, rfl⟩
    have hq2rot : q2 = (p + 1 + s) % menu.length := by
      rw [hq2def, hq, Nat.mod_add_mod]
      congr 1
      omega
    have hrot : (rotateAfter menu p)[s]? = some e2 := by
      rw [rotateAfter_getElem? menu p s hplt hs, ← hq2rot, he2]
    have hrotlen : (rotateAfter menu p).length = menu.length :=
      rotateAfter_length menu p hplt
    have hslt : s < (rotateAfter menu p).length := by omega
    have hdropcons : (rotateAfter menu p).drop s
        = e2 :: (rotateAfter menu p).drop (s + 1) := by
      rw [List.drop_eq_getElem_cons hslt]
      rw [List.getElem?_eq_getElem hslt, Option.some_inj] at hrot
      rw [hrot]
    simp only [arrowDownLoop]
    rw [nextElem_at menu q e hnd he, ← hq2def, he2]
    change (if e2.disabled = false then some e2.originalIndex
        else if (e2.originalIndex : Int) = (f.originalIndex : Int) then none
        else arrowDownLoop menu (f.originalIndex : Int) (e2.originalIndex : Int) fuel) = _
    by_cases hdis : e2.disabled = false
    · have hpred : (!e2.disabled) = true := by rw [hdis]; rfl
      rw [if_pos hdis, hdropcons,
        @List.find?_cons_of_pos MenuOpt (fun x => !x.disabled) e2
          ((rotateAfter menu p).drop (s + 1)) hpred,
        Option.map_some']
    · have hdis2 : e2.disabled = true := by
        revert hdis
        cases e2.disabled <;> simp
      have hpredn : ¬((!e2.disabled) = true) := by
        rw [hdis2]
        simp
      rw [if_neg hdis]
      by_cases hlast : s = menu.length - 1
      · have hq2p : q2 = p := by
          rw [hq2rot, hlast]
          have h1 : p + 1 + (menu.length - 1) = p + menu.length := by omega
          rw [h1, Nat.add_mod_right, Nat.mod_eq_of_lt hplt]
        have he2f : e2 = f := by
          rw [hq2p, hp, Option.some_inj] at he2
          exact he2.symm
        rw [if_pos (by rw [he2f])]
        have hdropnil : (rotateAfter menu p).drop (s + 1) = [] := by
          have hs1 : s + 1 = (rotateAfter menu p).length := by omega
          rw [hs1, List.drop_length]
        rw [hdropcons, hdropnil,
          @List.find?_cons_of_neg MenuOpt (fun x => !x.disabled) e2 [] hpredn,
          List.find?_nil, Option.map_none']
      · have hmodne : (p + 1 + s) % menu.length ≠ p := by
          intro hmod
          by_cases hlt2 : p + 1 + s < menu.length
          · rw [Nat.mod_eq_of_lt hlt2] at hmod
            omega
          · rw [Nat.mod_eq_sub_mod (by omega), Nat.mod_eq_of_lt (by omega)] at hmod
            omega
        have hne : ¬((e2.originalIndex : Int) = (f.originalIndex : Int)) := by
          intro hc
          rw [Nat.cast_inj] at hc
          exact hmodne (hq2rot ▸ orig_inj_of_nodup menu q2 p e2 f hnd he2 hp hc)
        rw [if_neg hne]
        have hrec := ih (s + 1) q2 e2 (by omega) (by omega)
          (by rw [hq2rot]; congr 1; omega) he2
        rw [hrec, hdropcons,
          @List.find?_cons_of_neg MenuOpt (fun x => !x.disabled) e2
            ((rotateAfter menu p).drop (s + 1)) hpredn]

/-- C8 counterexample: with the first filtered option disabled, ArrowDown
from no focus on an open ComboBox focuses that disabled first option (index
0), not the first enabled option (index 1) as the claim states. -/
theorem comboBox_arrowDown_noFocus_disabled_first :
    handleArrowDown true 2 false [⟨0, true⟩, ⟨1, false⟩] (-1) = KeyResult.dispatchFocus 0
    ∧ KeyResult.dispatchFocus 0 ≠ KeyResult.dispatchFocus 1 := by decide

/-- C8 (amended): ArrowDown while the dropdown is closed dispatches open and
nothing else (focus unchanged); while open with no focused option it
dispatches focus on the first rendered filtered option regardless of its
disabled state; while open with a rendered focused option and virtualization
disabled it dispatches focus on the first non-disabled option in cyclic
filtered order after the focused one — skipping disabled options and
wrapping past the end to the first rendered option — and dispatches nothing
when all candidates are disabled; with virtualization enabled and the
focused option rendered last it dispatches nothing (never wraps past the
last rendered option). -/
theorem comboBox_arrowDown_props
    (menu : List MenuOpt) (optionCount : Nat) (virt : Bool) (p : Nat) (f h0 : MenuOpt)
    (hnd : (menu.map MenuOpt.originalIndex).Nodup)
    (hp : menu[p]? = some f)
    (hhead : menu[0]? = some h0)
    (hcnt : optionCount ≠ 0) :
    handleArrowDown false optionCount virt menu (f.originalIndex : Int)
        = KeyResult.dispatchOpen
    ∧ handleArrowDown true optionCount virt menu (-1)
        = KeyResult.dispatchFocus (h0.originalIndex : Int)
    ∧ handleArrowDown true optionCount false menu (f.originalIndex : Int)
        = (match (rotateAfter menu p).find? (fun x => !x.disabled) with
           | some x => KeyResult.dispatchFocus (x.originalIndex : Int)
           | none => KeyResult.noop)
    ∧ (p = menu.length - 1 →
        handleArrowDown true optionCount true menu (f.originalIndex : Int)
          = KeyResult.noop) := by
  have hplt : p < menu.length := (List.getElem?_eq_some.mp hp).1
  have hfne : ¬((f.originalIndex : Int) = -1) := by omega
  refine ⟨rfl, ?_, ?_, ?_⟩
  · unfold handleArrowDown
    rw [if_neg (by decide : ¬(true = false)), if_neg hcnt, if_pos rfl,
      List.head?_eq_getElem?, hhead]
    rfl
  · unfold handleArrowDown
    rw [if_neg (by decide : ¬(true = false)), if_neg hcnt, if_neg hfne,
      if_neg (fun hc => Bool.false_ne_true hc.1)]
    have hloop := arrowDownLoop_eq_find menu p f hnd hp (menu.length + 1) 0 p f
      (by omega) (by omega) (by rw [Nat.add_zero, Nat.mod_eq_of_lt hplt]) hp
    rw [List.drop_zero] at hloop
    rw [hloop]
    cases hfind : (rotateAfter menu p).find? fun x => !x.disabled with
    | none => rfl
    | some x => rfl
  · intro hpl
    have hbindnone :
        ((findPos menu (f.originalIndex : Int)).bind fun p => menu[p + 1]?) = none := by
      rw [findPos_eq_of_nodup menu p f hnd hp]
      show menu[p + 1]? = none
      exact List.getElem?_eq_none (by omega)
    unfold handleArrowDown
    rw [if_neg (by decide : ¬(true = false)), if_neg hcnt, if_neg hfne,
      if_pos ⟨rfl, hbindnone⟩]

/-- C8 witness: over the rendered menu `[0 enabled, 1 disabled, 2 enabled]`
with option 0 focused and virtualization disabled, ArrowDown skips the
disabled option 1 and focuses option 2; from no focus it focuses option 0;
while closed it dispatches open; and with virtualization enabled and option
2 (the last rendered) focused, it does nothing. -/
theorem comboBox_arrowDown_props_witness :
    handleArrowDown false 3 false [⟨0, false⟩, ⟨1, true⟩, ⟨2, false⟩] ((0 : Nat) : Int)
        = KeyResult.dispatchOpen
    ∧ handleArrowDown true 3 false [⟨0, false⟩, ⟨1, true⟩, ⟨2, false⟩] (-1)
        = KeyResult.dispatchFocus (((0 : Nat) : Int))
    ∧ handleArrowDown true 3 false [⟨0, false⟩, ⟨1, true⟩, ⟨2, false⟩] ((0 : Nat) : Int)
        = (match (rotateAfter [⟨0, false⟩, ⟨1, true⟩, ⟨2, false⟩] 0).find?
              (fun x => !x.disabled) with
           | some x => KeyResult.dispatchFocus (x.originalIndex : Int)
           | none => KeyResult.noop)
    ∧ handleArrowDown true 3 true [⟨0, false⟩, ⟨1, true⟩, ⟨2, false⟩] ((2 : Nat) : Int)
        = KeyResult.noop := by
  have h1 := comboBox_arrowDown_props [⟨0, false⟩, ⟨1, true⟩, ⟨2, false⟩] 3 false 0
    ⟨0, false⟩ ⟨0, false⟩ (by decide) (by decide) (by decide) (by decide)
  have h2 := comboBox_arrowDown_props [⟨0, false⟩, ⟨1, true⟩, ⟨2, false⟩] 3 true 2
    ⟨2, false⟩ ⟨0, false⟩ (by decide) (by decide) (by decide) (by decide)
  exact ⟨h1.1, h1.2.1, h1.2.2.1, h2.2.2.2 (by decide)⟩

/-- C7 witness: typing `b` and typing `B` over options `A`, `B` produce the
same filtered view, from any two previous filter states. -/
theorem comboBox_defaultFilter_props_witness :
    (handleOnInput demoOptions { inputValue := [], filteredOptions := demoOptions }
        ['b']).filteredOptions
      = (handleOnInput demoOptions { inputValue := ['x'], filteredOptions := [] }
        ['B']).filteredOptions :=
  (comboBox_defaultFilter_props demoOptions
    { inputValue := [], filteredOptions := demoOptions }
    { inputValue := ['x'], filteredOptions := [] } ['b'] ['B']).2.2 (by decide)

end ITwinUI
